import Mathlib

/-!
A verification development for the embedding-cache and retrieval subsystem of
the cohere server (src/server.js).

Modelling conventions:
* JavaScript numbers are idealised as real numbers (`ℝ`); float rounding is
  out of scope.
* The NaN value that JavaScript produces from `0/0`, and from arithmetic with
  `undefined` after indexing past the end of an array, is modelled explicitly
  by `Option ℝ`, with `none` standing for NaN.  Whenever the denominator
  `magA * magB` of the cosine similarity is zero the numerator is forced to be
  zero as well (a zero magnitude means the vector is identically zero), so the
  only non-real value the similarity can take is NaN, never an infinity.
* `Array.prototype.sort` with the comparator `(a, b) => b.score - a.score` is
  modelled as a stable insertion sort.  ECMAScript SortCompare coerces a NaN
  comparator result to +0, so a NaN score ties with every other score; the
  model's insertion sort implements exactly that comparator.
* Asynchronous file and network effects are modelled by explicit state passing:
  the embeddings file is a `FileState`, the embedding and chat providers are
  oracle functions, and the number of outbound provider calls is returned
  alongside each result.
-/

namespace CohereServer

/-- The `data` part of a document: title and snippet. -/
structure DocData where
  title : String
  snippet : String
deriving DecidableEq

/-- A document as produced by `loadDocuments`, before embedding. -/
structure RawDoc where
  id : String
  data : DocData
deriving DecidableEq

/-- An embedded document, as held in `cachedDocuments` and used for ranking. -/
structure EmbDoc where
  id : String
  data : DocData
  embedding : List ℝ

/-- The dot product loop of `cosineSimilarity`:
`vecA.reduce((sum, a, idx) => sum + a * vecB[idx], 0)`.
When `vecA` is longer than `vecB` the loop reads `vecB[idx] = undefined`, and
`a * undefined` is NaN, which propagates through the whole sum; this is the
`none` branch.  Otherwise the sum runs over the index-wise products of the
first `vecA.length` entries. -/
def dotJS (vecA vecB : List ℝ) : Option ℝ :=
  if vecA.length ≤ vecB.length then
    some (((vecA.zip vecB).map fun p => p.1 * p.2).sum)
  else none

/-- Euclidean magnitude, `Math.sqrt(v.reduce((sum, a) => sum + a * a, 0))`,
used for both `magA` and `magB` in `cosineSimilarity`. -/
noncomputable def mag (v : List ℝ) : ℝ :=
  Real.sqrt ((v.map fun x => x * x).sum)

/-- `cosineSimilarity(vecA, vecB) = dotProduct / (magA * magB)`.
`none` models a NaN result: either the dot product itself is NaN
(query longer than the document vector), or the denominator is zero, in which
case the dot product is necessarily zero and `0/0` is NaN. -/
noncomputable def cosineSimilarity (vecA vecB : List ℝ) : Option ℝ :=
  match dotJS vecA vecB with
  | none => none
  | some d =>
    if mag vecA * mag vecB = 0 then none
    else some (d / (mag vecA * mag vecB))

/-- Strict comparison of two (possibly NaN) scores.  The sort comparator
`(a, b) => b.score - a.score` produces a negative number exactly when
`a.score > b.score`; any comparison involving NaN yields NaN, which
SortCompare coerces to +0 (a tie), hence `False` here. -/
def scoreGT : Option ℝ → Option ℝ → Prop
  | some a, some b => b < a
  | _, _ => False

/-- Non-strict score comparison, used to state the descending-order property
of the sorted output (any comparison involving NaN is a tie). -/
def scoreGE : Option ℝ → Option ℝ → Prop
  | some a, some b => b ≤ a
  | _, _ => True

noncomputable instance (a b : Option ℝ) : Decidable (scoreGT a b) :=
  Classical.propDecidable _

/-- Insert one scored document into an already sorted list, exactly as a
stable sort with the comparator `(a, b) => b.score - a.score` places it:
it moves past every element whose score is strictly greater and stops at the
first element that compares as less-or-tied, so equal (and NaN) scores keep
their original relative order. -/
noncomputable def insertDesc (x : EmbDoc × Option ℝ) :
    List (EmbDoc × Option ℝ) → List (EmbDoc × Option ℝ)
  | [] => [x]
  | y :: ys => if scoreGT y.2 x.2 then y :: insertDesc x ys else x :: y :: ys

/-- The stable descending sort performed by
`similarities.sort((a, b) => b.score - a.score)`. -/
noncomputable def sortJS : List (EmbDoc × Option ℝ) → List (EmbDoc × Option ℝ)
  | [] => []
  | x :: xs => insertDesc x (sortJS xs)

/-- `getTopKDocuments(queryEmbedding, documents, k)`: score every document,
sort the scored list (stable, descending), take the first `k` and drop the
scores.  The JavaScript default `k = 5` is always overridden at the one call
site (`k = 10`), so `k` is an explicit argument here. -/
noncomputable def getTopKDocuments (queryEmbedding : List ℝ)
    (documents : List EmbDoc) (k : Nat) : List EmbDoc :=
  let similarities := documents.map fun doc =>
    (doc, cosineSimilarity queryEmbedding doc.embedding)
  let sorted := sortJS similarities
  (sorted.take k).map fun item => item.1

/-- One record of the persisted embeddings file, `{id, title, snippet,
embedding}`. -/
structure CacheRecord where
  id : String
  title : String
  snippet : String
  embedding : List ℝ

/-- The state of `./documents/embeddings.json`: absent (first run), present
but unparsable, or present and parsed to a list of records. -/
inductive FileState where
  | absent
  | corrupt
  | valid (records : List CacheRecord)

/-- The warning printed by the catch branch of `loadEmbeddingsFromFile`. -/
def embeddingsWarning : String :=
  "No existing embeddings file found. Will compute embeddings."

/-- `loadEmbeddingsFromFile()`: read and parse the embeddings file, mapping
each record to an embedded document; any error (missing file or unparsable
content) is caught by the same catch branch, which prints
`embeddingsWarning` and returns null (`none`).  The second component is the
console line the call prints. -/
def loadEmbeddingsFromFile : FileState → Option (List EmbDoc) × String
  | FileState.valid recs =>
    (some (recs.map fun item => ⟨item.id, ⟨item.title, item.snippet⟩, item.embedding⟩),
     "Loaded " ++ toString recs.length ++ " embeddings from ./documents/embeddings.json")
  | FileState.absent => (none, embeddingsWarning)
  | FileState.corrupt => (none, embeddingsWarning)

/-- `saveEmbeddingsToFile(documents)`: the record list written to the
embeddings file. -/
def saveEmbeddingsToFile (documents : List EmbDoc) : List CacheRecord :=
  documents.map fun doc => ⟨doc.id, doc.data.title, doc.data.snippet, doc.embedding⟩

/-- The text embedded for a document: `` `${doc.data.title}. ${doc.data.snippet}` ``. -/
def embedText (doc : RawDoc) : String :=
  doc.data.title ++ ". " ++ doc.data.snippet

/-- `embedDocumentsInBatches(documents, batchSize = 96)`: slice the corpus
into batches of at most 96 documents and submit each batch to the embedding
provider.  The provider is an oracle from the batch number and batch texts to
`some` embeddings or `none` (a rejected call).  The result is the
concatenated embeddings (or `none` if any batch call failed, in which case
the JavaScript exception aborts the loop) together with the number of
provider calls actually made. -/
def embedDocumentsInBatches
    (oracle : Nat → List String → Option (List (List ℝ))) (batchNum : Nat) :
    List RawDoc → Option (List (List ℝ)) × Nat
  | [] => (some [], 0)
  | d :: ds =>
    match oracle batchNum (((d :: ds).take 96).map embedText) with
    | none => (none, 1)
    | some embs =>
      let rest := embedDocumentsInBatches oracle (batchNum + 1) ((d :: ds).drop 96)
      (rest.1.map fun tail => embs ++ tail, rest.2 + 1)
  termination_by l => l.length
  decreasing_by
    simp only [List.length_drop]
    simp only [List.length_cons]
    omega

/-- `allEmbeddings.forEach((embedding, i) => { documents[i].embedding = embedding })`:
attach the returned vectors to the documents index-for-index. -/
def zipEmbeddings (documents : List RawDoc) (embs : List (List ℝ)) : List EmbDoc :=
  (documents.zip embs).map fun p => ⟨p.1.id, p.1.data, p.2⟩

/-- The observable outcome of `initializeDocuments()`: the final state of the
embeddings file, the final value of the module-level `cachedDocuments`
variable (`none` models JavaScript null), and the number of embedding
provider calls made. -/
structure InitResult where
  file : FileState
  cachedDocuments : Option (List EmbDoc)
  embedCalls : Nat

/-- `initializeDocuments()`: try to load the cache; on success install it
with no provider calls.  Otherwise embed the whole corpus in batches; if a
batch call fails the exception propagates (nothing is saved and
`cachedDocuments` is left null), and on success the zipped documents are
saved to the file and installed. -/
def initializeDocuments (fs : FileState)
    (oracle : Nat → List String → Option (List (List ℝ)))
    (corpus : List RawDoc) : InitResult :=
  match (loadEmbeddingsFromFile fs).1 with
  | some docs => ⟨fs, some docs, 0⟩
  | none =>
    match embedDocumentsInBatches oracle 1 corpus with
    | (none, c) => ⟨fs, none, c⟩
    | (some embs, c) =>
      let docs := zipEmbeddings corpus embs
      ⟨FileState.valid (saveEmbeddingsToFile docs), some docs, c⟩

/-- The outward response of the `/generate` route.  `ok` carries the
generated text together with the documents that were forwarded to the chat
call (observable through the citations). -/
inductive GenResponse where
  | badRequest (error : String)
  | serverError (error : String)
  | ok (text : String) (docsUsed : List EmbDoc)

/-- The `/generate` handler.  `prompt` is `none` when the field is missing;
the guard `if (!prompt)` also rejects the empty string.  `cached` is the
module-level `cachedDocuments`: `none` models null (mid cold-start build) and
`some []` the initial empty array.  When `cached` is null,
`getTopKDocuments(q, null, 10)` throws, the catch branch answers 500; a
failing embed or chat call lands in the same catch branch.  The second
component counts outbound provider calls (embed, then chat). -/
noncomputable def generateHandler (prompt : Option String)
    (cached : Option (List EmbDoc))
    (embedOracle : String → Option (List ℝ))
    (chatOracle : String → List EmbDoc → Option String) : GenResponse × Nat :=
  match prompt with
  | none => (GenResponse.badRequest "Prompt is required", 0)
  | some p =>
    if p = "" then (GenResponse.badRequest "Prompt is required", 0)
    else
      match embedOracle p with
      | none => (GenResponse.serverError "Cohere request failed", 1)
      | some queryEmbedding =>
        match cached with
        | none => (GenResponse.serverError "Cohere request failed", 1)
        | some docs =>
          let top := getTopKDocuments queryEmbedding docs 10
          match chatOracle p top with
          | none => (GenResponse.serverError "Cohere request failed", 2)
          | some text => (GenResponse.ok text top, 2)

/-- The outward response of the `/holiday` route. -/
inductive HolidayResponse where
  | serverError (error : String)
  | ok (itinerary : String)

/-- Template-literal stringification: `undefined` interpolates as the text
"undefined". -/
def jsStr : Option String → String
  | some s => s
  | none => "undefined"

/-- Template-literal stringification of an optional number. -/
def jsNat : Option Nat → String
  | some n => toString n
  | none => "undefined"

/-- `x || ''`: a missing (or empty) value degrades to the empty string. -/
def orEmpty : Option String → String
  | some s => s
  | none => ""

/-- The chat message built by the `/holiday` handler; a missing `userInput`
is interpolated as the text "undefined". -/
def holidayMessage (userInput : Option String) : String :=
  "Generate a holiday itinerary based on this request: \"" ++ jsStr userInput ++
    "\". Format the response as Day-wise itinerary."

/-- The `/holiday` handler: no validation of `userInput` — the chat provider
is always called, with the interpolated message.  The second component counts
outbound provider calls. -/
def holidayHandler (userInput : Option String)
    (chatOracle : String → Option String) : HolidayResponse × Nat :=
  match chatOracle (holidayMessage userInput) with
  | some text => (HolidayResponse.ok text, 1)
  | none => (HolidayResponse.serverError "Failed to generate itinerary", 1)

/-- The `name` object of a REST-countries record. -/
structure CountryName where
  common : Option String
  official : Option String
deriving DecidableEq

/-- A REST-countries source record; every field the normaliser reads is
optional. -/
structure RestCountry where
  name : Option CountryName
  capital : Option (List String)
  region : Option String
  subregion : Option String
  population : Option Nat
  languages : Option (List String)
  area : Option Nat
deriving DecidableEq

/-- A merged-countries source record; every field the normaliser reads is
optional. -/
structure MergedCountry where
  name : Option String
  capital : Option String
  region : Option String
  population : Option Nat
  language : Option String
  currency : Option String
deriving DecidableEq

/-- The `rest_countries` branch of `loadDocuments`: optional chaining guards
`name?.common`, `name?.official` and `capital?.[0]`, and `|| ''` defaults the
title, the capital and the languages — but `official`, `region`, `subregion`,
`population` and `area` are interpolated without a default. -/
def restCountryDoc (c : RestCountry) : RawDoc :=
  { id := "rest_countries_" ++ jsStr (c.name.bind fun n => n.common)
    data :=
      { title := orEmpty (c.name.bind fun n => n.common)
        snippet :=
          "Official Name: " ++ jsStr (c.name.bind fun n => n.official) ++
          ". Capital: " ++ orEmpty (c.capital.bind List.head?) ++
          ". Region: " ++ jsStr c.region ++
          ". Subregion: " ++ jsStr c.subregion ++
          ". Population: " ++ jsNat c.population ++
          ". Languages: " ++ String.intercalate ", " (c.languages.getD []) ++
          ". Area: " ++ jsNat c.area ++ " sq km." } }

/-- The `merged_countries` branch of `loadDocuments`: only the title has a
`|| ''` default; every interpolated field is taken raw. -/
def mergedCountryDoc (c : MergedCountry) : RawDoc :=
  { id := "merged_countries_" ++ jsStr c.name
    data :=
      { title := orEmpty c.name
        snippet :=
          "Capital: " ++ jsStr c.capital ++
          ", Region: " ++ jsStr c.region ++
          ", Population: " ++ jsNat c.population ++
          ", Language: " ++ jsStr c.language ++
          ", Currency: " ++ jsStr c.currency } }

/-- The documents of the spec's ranking scenario, embeddings `[1,0]`,
`[0,1]`, `[1,0]`. -/
def scenD0 : EmbDoc := ⟨"d0", ⟨"t0", "s0"⟩, [1, 0]⟩

/-- Second scenario document, embedding `[0,1]`. -/
def scenD1 : EmbDoc := ⟨"d1", ⟨"t1", "s1"⟩, [0, 1]⟩

/-- Third scenario document, embedding `[1,0]`, tied with the first. -/
def scenD2 : EmbDoc := ⟨"d2", ⟨"t2", "s2"⟩, [1, 0]⟩

/-- The scenario corpus. -/
def scenDocs : List EmbDoc := [scenD0, scenD1, scenD2]

/-- A document whose embedding has Euclidean norm exactly zero. -/
def zeroDoc : EmbDoc := ⟨"z", ⟨"tz", "sz"⟩, [0, 0]⟩

/-- A document with a unit embedding, perfectly similar to the query `[1,0]`. -/
def unitDoc : EmbDoc := ⟨"u", ⟨"tu", "su"⟩, [1, 0]⟩

/-- A document whose embedding dimension (2) differs from the query
dimension (1) used in the dimension-mismatch counterexample. -/
def mismatchDoc : EmbDoc := ⟨"m", ⟨"tm", "sm"⟩, [1, 0]⟩

/-- A raw corpus document for the pipeline examples. -/
def rawDoc0 : RawDoc := ⟨"r0", ⟨"t", "s"⟩⟩

/-- A three-document corpus (one batch of at most 96). -/
def corpus3 : List RawDoc := [rawDoc0, rawDoc0, rawDoc0]

/-- An embedding oracle that answers every batch with one vector per text. -/
def constEmbedOracle : Nat → List String → Option (List (List ℝ)) :=
  fun _ ts => some (ts.map fun _ => [1])

/-- An embedding oracle whose every call fails. -/
def failEmbedOracle : Nat → List String → Option (List (List ℝ)) :=
  fun _ _ => none

/-- A query-embedding oracle that always succeeds. -/
def okQueryOracle : String → Option (List ℝ) :=
  fun _ => some [1]

/-- A chat oracle that always succeeds. -/
def okChatOracle : String → List EmbDoc → Option String :=
  fun _ _ => some "answer"

/-- A REST-countries record with every read field present except `region`. -/
def franceNoRegion : RestCountry :=
  { name := some { common := some "France", official := some "French Republic" }
    capital := some ["Paris"]
    region := none
    subregion := some "Western Europe"
    population := some 67000000
    languages := some ["French"]
    area := some 551695 }

/-- A REST-countries record with every read field missing. -/
def restAllMissing : RestCountry := ⟨none, none, none, none, none, none, none⟩

/-- A merged-countries record with every read field missing. -/
def mergedAllMissing : MergedCountry := ⟨none, none, none, none, none, none⟩

/-- The documents of `getTopKDocuments`' output that have a given similarity
to the query: the instrument for stating sort stability. -/
noncomputable def withSim (q : List ℝ) (s : ℝ) (docs : List EmbDoc) : List EmbDoc :=
  docs.filter fun d => decide (cosineSimilarity q d.embedding = some s)

/-! ### Properties of the stable descending sort -/

theorem scoreGT_none_left (b : Option ℝ) : ¬ scoreGT none b := by
  cases b <;> simp [scoreGT]

theorem scoreGT_none_right (a : Option ℝ) : ¬ scoreGT a none := by
  cases a <;> simp [scoreGT]

theorem insertDesc_length (x : EmbDoc × Option ℝ) (l : List (EmbDoc × Option ℝ)) :
    (insertDesc x l).length = l.length + 1 := by
  induction l with
  | nil => simp [insertDesc]
  | cons y ys ih =>
    by_cases h : scoreGT y.2 x.2
    · simp [insertDesc, h, ih]
    · simp [insertDesc, h]

theorem sortJS_length (l : List (EmbDoc × Option ℝ)) : (sortJS l).length = l.length := by
  induction l with
  | nil => rfl
  | cons x xs ih => simp [sortJS, insertDesc_length, ih]

theorem insertDesc_perm (x : EmbDoc × Option ℝ) (l : List (EmbDoc × Option ℝ)) :
    (insertDesc x l).Perm (x :: l) := by
  induction l with
  | nil => simp [insertDesc]
  | cons y ys ih =>
    by_cases h : scoreGT y.2 x.2
    · rw [show insertDesc x (y :: ys) = y :: insertDesc x ys from by simp [insertDesc, h]]
      exact (ih.cons y).trans (List.Perm.swap x y ys)
    · rw [show insertDesc x (y :: ys) = x :: y :: ys from by simp [insertDesc, h]]

theorem sortJS_perm (l : List (EmbDoc × Option ℝ)) : (sortJS l).Perm l := by
  induction l with
  | nil => exact List.Perm.refl _
  | cons x xs ih => exact (insertDesc_perm x (sortJS xs)).trans (ih.cons x)

theorem insertDesc_pairwise :
    ∀ {l : List (EmbDoc × Option ℝ)} {x : EmbDoc × Option ℝ},
      (x.2).isSome → (∀ y ∈ l, (y.2).isSome) →
      l.Pairwise (fun a b => scoreGE a.2 b.2) →
      (insertDesc x l).Pairwise (fun a b => scoreGE a.2 b.2) := by
  intro l
  induction l with
  | nil =>
    intro x _ _ _
    simp [insertDesc]
  | cons y ys ih =>
    intro x hx hl hp
    obtain ⟨xv, hxv⟩ := Option.isSome_iff_exists.mp hx
    obtain ⟨yv, hyv⟩ := Option.isSome_iff_exists.mp (hl y (by simp))
    rw [List.pairwise_cons] at hp
    by_cases h : scoreGT y.2 x.2
    · rw [show insertDesc x (y :: ys) = y :: insertDesc x ys from by simp [insertDesc, h]]
      rw [List.pairwise_cons]
      refine ⟨?_, ih hx (fun z hz => hl z (by simp [hz])) hp.2⟩
      intro z hz
      rcases List.mem_cons.mp ((insertDesc_perm x ys).mem_iff.mp hz) with rfl | hzys
      · show scoreGE y.2 z.2
        rw [hxv, hyv] at h ⊢
        exact le_of_lt h
      · exact hp.1 z hzys
    · rw [show insertDesc x (y :: ys) = x :: y :: ys from by simp [insertDesc, h]]
      rw [List.pairwise_cons]
      constructor
      · intro z hz
        rcases List.mem_cons.mp hz with rfl | hzys
        · show scoreGE x.2 z.2
          rw [hxv, hyv] at h ⊢
          exact not_lt.mp h
        · obtain ⟨zv, hzv⟩ := Option.isSome_iff_exists.mp (hl z (by simp [hzys]))
          have h1 : scoreGE y.2 z.2 := hp.1 z hzys
          show scoreGE x.2 z.2
          rw [hyv, hzv] at h1
          rw [hxv, hzv]
          rw [hxv, hyv] at h
          exact le_trans h1 (not_lt.mp h)
      · rw [List.pairwise_cons]
        exact ⟨hp.1, hp.2⟩

theorem sortJS_pairwise :
    ∀ {l : List (EmbDoc × Option ℝ)}, (∀ y ∈ l, (y.2).isSome) →
      (sortJS l).Pairwise (fun a b => scoreGE a.2 b.2) := by
  intro l
  induction l with
  | nil => intro _; simp [sortJS]
  | cons x xs ih =>
    intro hl
    have hxs : ∀ y ∈ xs, (y.2).isSome := fun y hy => hl y (by simp [hy])
    have hs : ∀ y ∈ sortJS xs, (y.2).isSome := fun y hy =>
      hxs y ((sortJS_perm xs).mem_iff.mp hy)
    exact insertDesc_pairwise (hl x (by simp)) hs (ih hxs)

theorem insertDesc_filter (x : EmbDoc × Option ℝ) (l : List (EmbDoc × Option ℝ)) (s : ℝ) :
    (insertDesc x l).filter (fun y => decide (y.2 = some s)) =
      if x.2 = some s then x :: l.filter (fun y => decide (y.2 = some s))
      else l.filter (fun y => decide (y.2 = some s)) := by
  induction l with
  | nil =>
    by_cases hx : x.2 = some s <;> simp [insertDesc, hx]
  | cons y ys ih =>
    by_cases h : scoreGT y.2 x.2
    · have hne : ¬ (y.2 = some s ∧ x.2 = some s) := by
        rintro ⟨hy, hx⟩
        rw [hy, hx] at h
        exact lt_irrefl s h
      have hstep : insertDesc x (y :: ys) = y :: insertDesc x ys := by
        simp [insertDesc, h]
      rw [hstep, List.filter_cons, ih]
      by_cases hy : y.2 = some s
      · have hx : ¬ x.2 = some s := fun hx => hne ⟨hy, hx⟩
        simp [hy, hx, List.filter_cons]
      · by_cases hx : x.2 = some s <;> simp [hy, hx, List.filter_cons]
    · have hstep : insertDesc x (y :: ys) = x :: y :: ys := by
        simp [insertDesc, h]
      rw [hstep, List.filter_cons, List.filter_cons]
      by_cases hx : x.2 = some s <;> by_cases hy : y.2 = some s <;>
        simp [hx, hy, List.filter_cons]

theorem sortJS_filter (l : List (EmbDoc × Option ℝ)) (s : ℝ) :
    (sortJS l).filter (fun y => decide (y.2 = some s)) =
      l.filter (fun y => decide (y.2 = some s)) := by
  induction l with
  | nil => rfl
  | cons x xs ih =>
    rw [show sortJS (x :: xs) = insertDesc x (sortJS xs) from rfl, insertDesc_filter, ih]
    by_cases hx : x.2 = some s <;> simp [List.filter_cons, hx]

/-! ### Magnitude and cosine-similarity facts -/

theorem sq_sum_nonneg (v : List ℝ) : 0 ≤ (v.map fun x => x * x).sum :=
  List.sum_nonneg fun x hx => by
    obtain ⟨a, _, rfl⟩ := List.mem_map.mp hx
    exact mul_self_nonneg a

theorem sq_sum_zero : ∀ {v : List ℝ}, (v.map fun x => x * x).sum = 0 → ∀ x ∈ v, x = 0 := by
  intro v
  induction v with
  | nil => simp
  | cons a as ih =>
    intro h x hx
    rw [List.map_cons, List.sum_cons] at h
    have h1 : 0 ≤ a * a := mul_self_nonneg a
    have h2 : 0 ≤ (as.map fun x => x * x).sum := sq_sum_nonneg as
    rcases List.mem_cons.mp hx with rfl | hxs
    · exact mul_self_eq_zero.mp (by linarith)
    · exact ih (by linarith) x hxs

theorem mag_zero_entries {v : List ℝ} (h : mag v = 0) : ∀ x ∈ v, x = 0 := by
  rw [mag] at h
  exact sq_sum_zero ((Real.sqrt_eq_zero (sq_sum_nonneg v)).mp h)

theorem dot_sum_zero_of_right :
    ∀ (a b : List ℝ), (∀ x ∈ b, x = 0) →
      ((a.zip b).map fun p => p.1 * p.2).sum = 0 := by
  intro a
  induction a with
  | nil => intro b _; simp
  | cons x xs ih =>
    intro b hb
    cases b with
    | nil => simp
    | cons y ys =>
      rw [List.zip_cons_cons, List.map_cons, List.sum_cons]
      rw [hb y (by simp), mul_zero, zero_add]
      exact ih ys fun z hz => hb z (by simp [hz])

theorem cosineSimilarity_of_mag_zero (q emb : List ℝ) (h : mag emb = 0) :
    cosineSimilarity q emb = none := by
  by_cases hlen : q.length ≤ emb.length
  · have hd : dotJS q emb = some 0 := by
      rw [dotJS, if_pos hlen, dot_sum_zero_of_right q emb (mag_zero_entries h)]
    simp [cosineSimilarity, hd, h]
  · have hd : dotJS q emb = none := by rw [dotJS, if_neg hlen]
    simp [cosineSimilarity, hd]

theorem cosineSimilarity_long_query (a b : List ℝ) (h : b.length < a.length) :
    cosineSimilarity a b = none := by
  have hd : dotJS a b = none := by rw [dotJS, if_neg (by omega)]
  simp [cosineSimilarity, hd]

theorem zip_take_eq : ∀ (a b : List ℝ), a.zip (b.take a.length) = a.zip b := by
  intro a
  induction a with
  | nil => intro b; simp
  | cons x xs ih =>
    intro b
    cases b with
    | nil => simp
    | cons y ys => simp [List.zip_cons_cons, ih]

theorem dotJS_truncates (a b : List ℝ) (h : a.length ≤ b.length) :
    dotJS a b = dotJS a (b.take a.length) := by
  rw [dotJS, dotJS, if_pos h, if_pos (by rw [List.length_take]; omega), zip_take_eq]

theorem mag_one_zero : mag [(1 : ℝ), 0] = 1 := by
  have : ((([(1 : ℝ), 0]).map fun x => x * x).sum) = 1 := by norm_num
  rw [mag, this, Real.sqrt_one]

theorem mag_zero_one : mag [(0 : ℝ), 1] = 1 := by
  have : ((([(0 : ℝ), 1]).map fun x => x * x).sum) = 1 := by norm_num
  rw [mag, this, Real.sqrt_one]

theorem mag_zero_zero : mag [(0 : ℝ), 0] = 0 := by
  have : ((([(0 : ℝ), 0]).map fun x => x * x).sum) = 0 := by norm_num
  rw [mag, this, Real.sqrt_zero]

theorem mag_one : mag [(1 : ℝ)] = 1 := by
  have : ((([(1 : ℝ)]).map fun x => x * x).sum) = 1 := by norm_num
  rw [mag, this, Real.sqrt_one]

theorem cos_q10_e10 : cosineSimilarity [(1 : ℝ), 0] [(1 : ℝ), 0] = some 1 := by
  have hd : dotJS [(1 : ℝ), 0] [(1 : ℝ), 0] = some 1 := by
    rw [dotJS, if_pos (by norm_num)]
    norm_num
  simp [cosineSimilarity, hd, mag_one_zero]

theorem cos_q10_e01 : cosineSimilarity [(1 : ℝ), 0] [(0 : ℝ), 1] = some 0 := by
  have hd : dotJS [(1 : ℝ), 0] [(0 : ℝ), 1] = some 0 := by
    rw [dotJS, if_pos (by norm_num)]
    norm_num
  simp [cosineSimilarity, hd, mag_one_zero, mag_zero_one]

theorem cos_q1_e10 : cosineSimilarity [(1 : ℝ)] [(1 : ℝ), 0] = some 1 := by
  have hd : dotJS [(1 : ℝ)] [(1 : ℝ), 0] = some 1 := by
    rw [dotJS, if_pos (by norm_num)]
    norm_num
  simp [cosineSimilarity, hd, mag_one, mag_one_zero]

/-! ### Top-K retrieval: length, order, stability, scenarios -/

theorem getTopK_length (q : List ℝ) (docs : List EmbDoc) (k : Nat) :
    (getTopKDocuments q docs k).length = min k docs.length := by
  simp [getTopKDocuments, List.length_take, sortJS_length]

theorem getTopK_pairwise (q : List ℝ) (docs : List EmbDoc) (k : Nat)
    (hdef : ∀ d ∈ docs, (cosineSimilarity q d.embedding).isSome) :
    (getTopKDocuments q docs k).Pairwise fun d₁ d₂ =>
      scoreGE (cosineSimilarity q d₁.embedding) (cosineSimilarity q d₂.embedding) := by
  simp only [getTopKDocuments]
  rw [List.pairwise_map]
  have hmem : ∀ y ∈ List.take k
      (sortJS (docs.map fun doc => (doc, cosineSimilarity q doc.embedding))),
      y.2 = cosineSimilarity q y.1.embedding ∧ y.1 ∈ docs := by
    intro y hy
    have h1 : y ∈ sortJS (docs.map fun doc => (doc, cosineSimilarity q doc.embedding)) :=
      (List.take_sublist k _).subset hy
    obtain ⟨d, hd, rfl⟩ := List.mem_map.mp ((sortJS_perm _).mem_iff.mp h1)
    exact ⟨rfl, hd⟩
  have hsome : ∀ y ∈ sortJS (docs.map fun doc => (doc, cosineSimilarity q doc.embedding)),
      (y.2).isSome := by
    intro y hy
    obtain ⟨d, hd, rfl⟩ := List.mem_map.mp ((sortJS_perm _).mem_iff.mp hy)
    exact hdef d hd
  have hp : (sortJS (docs.map fun doc => (doc, cosineSimilarity q doc.embedding))).Pairwise
      (fun a b => scoreGE a.2 b.2) := by
    apply sortJS_pairwise
    intro y hy
    obtain ⟨d, hd, rfl⟩ := List.mem_map.mp hy
    exact hdef d hd
  have hp2 := hp.sublist (List.take_sublist k _)
  refine hp2.imp_of_mem ?_
  intro a b ha hb hab
  rw [← (hmem a ha).1, ← (hmem b hb).1]
  exact hab

theorem filter_map_pair (q : List ℝ) (s : ℝ) (docs : List EmbDoc) :
    docs.filter (fun d => decide (cosineSimilarity q d.embedding = some s)) =
      List.map (fun y : EmbDoc × Option ℝ => y.1)
        ((docs.map fun d => (d, cosineSimilarity q d.embedding)).filter
          (fun y => decide (y.2 = some s))) := by
  induction docs with
  | nil => rfl
  | cons d ds ih =>
    rw [List.map_cons]
    by_cases hd : cosineSimilarity q d.embedding = some s
    · rw [List.filter_cons_of_pos (by simpa using hd),
        List.filter_cons_of_pos (by simpa using hd), List.map_cons, ih]
    · rw [List.filter_cons_of_neg (by simpa using hd),
        List.filter_cons_of_neg (by simpa using hd), ih]

theorem getTopK_stable (q : List ℝ) (docs : List EmbDoc) (k : Nat) (s : ℝ) :
    List.Sublist (withSim q s (getTopKDocuments q docs k)) (withSim q s docs) := by
  have key1 : withSim q s (getTopKDocuments q docs k) =
      List.map (fun y : EmbDoc × Option ℝ => y.1)
        ((List.take k (sortJS (docs.map fun d => (d, cosineSimilarity q d.embedding)))).filter
          (fun y => decide (y.2 = some s))) := by
    rw [withSim]
    simp only [getTopKDocuments]
    rw [List.filter_map]
    congr 1
    apply List.filter_congr
    intro y hy
    obtain ⟨d, hd, rfl⟩ := List.mem_map.mp
      ((sortJS_perm _).mem_iff.mp ((List.take_sublist k _).subset hy))
    rfl
  have key2 : withSim q s docs =
      List.map (fun y : EmbDoc × Option ℝ => y.1)
        ((docs.map fun d => (d, cosineSimilarity q d.embedding)).filter
          (fun y => decide (y.2 = some s))) := by
    rw [withSim]
    exact filter_map_pair q s docs
  rw [key1, key2]
  apply List.Sublist.map
  have h1 := (List.take_sublist k
    (sortJS (docs.map fun d => (d, cosineSimilarity q d.embedding)))).filter
    (fun y : EmbDoc × Option ℝ => decide (y.2 = some s))
  rw [sortJS_filter] at h1
  exact h1

theorem topK_scenario : getTopKDocuments [(1 : ℝ), 0] scenDocs 2 = [scenD0, scenD2] := by
  simp only [getTopKDocuments]
  have hsim : scenDocs.map (fun doc => (doc, cosineSimilarity [(1 : ℝ), 0] doc.embedding)) =
      [(scenD0, some 1), (scenD1, some 0), (scenD2, some 1)] := by
    simp [scenDocs, scenD0, scenD1, scenD2, cos_q10_e10, cos_q10_e01]
  rw [hsim]
  have hgt10 : scoreGT (some (1 : ℝ)) (some (0 : ℝ)) := by
    show (0 : ℝ) < 1
    norm_num
  have hngt11 : ¬ scoreGT (some (1 : ℝ)) (some (1 : ℝ)) := by
    show ¬ (1 : ℝ) < 1
    norm_num
  have h1 : sortJS [(scenD0, some 1), (scenD1, some 0), (scenD2, some 1)] =
      [(scenD0, some 1), (scenD2, some 1), (scenD1, some 0)] := by
    simp only [sortJS]
    rw [show insertDesc (scenD2, some (1 : ℝ)) [] = [(scenD2, some 1)] from rfl]
    rw [show insertDesc (scenD1, some (0 : ℝ)) [(scenD2, some 1)] =
        [(scenD2, some 1), (scenD1, some 0)] from by simp [insertDesc, hgt10]]
    simp [insertDesc, hngt11]
  rw [h1]
  rfl

theorem topK_zero_first (q : List ℝ) (d₀ d₁ : EmbDoc) (k : Nat)
    (h : mag d₀.embedding = 0) :
    getTopKDocuments q [d₀, d₁] k = ([d₀, d₁].take k) := by
  have h0 : cosineSimilarity q d₀.embedding = none := cosineSimilarity_of_mag_zero _ _ h
  simp only [getTopKDocuments, List.map]
  rw [h0]
  have hsort : sortJS [(d₀, none), (d₁, cosineSimilarity q d₁.embedding)] =
      [(d₀, none), (d₁, cosineSimilarity q d₁.embedding)] := by
    simp only [sortJS]
    rw [show insertDesc (d₁, cosineSimilarity q d₁.embedding)
        ([] : List (EmbDoc × Option ℝ)) = [(d₁, cosineSimilarity q d₁.embedding)] from rfl]
    simp [insertDesc, scoreGT_none_right]
  rw [hsort, List.map_take]
  rfl

/-! ### Pipeline facts: batching, cache load/save, initialisation -/

theorem embedBatches_calls (oracle : Nat → List String → Option (List (List ℝ)))
    (hsucc : ∀ i ts, oracle i ts ≠ none) :
    ∀ (n b : Nat) (docs : List RawDoc), docs.length = n →
      (embedDocumentsInBatches oracle b docs).2 = (docs.length + 95) / 96 := by
  intro n
  induction n using Nat.strong_induction_on with
  | _ n ih =>
    intro b docs hn
    match docs with
    | [] => simp [embedDocumentsInBatches]
    | d :: ds =>
      rw [embedDocumentsInBatches]
      cases ho : oracle b (((d :: ds).take 96).map embedText) with
      | none => exact absurd ho (hsucc _ _)
      | some embs =>
        have hlt : ((d :: ds).drop 96).length < n := by
          rw [List.length_drop, ← hn]
          simp only [List.length_cons]
          omega
        have hrec := ih _ hlt (b + 1) ((d :: ds).drop 96) rfl
        simp only
        rw [hrec, List.length_drop]
        simp only [List.length_cons]
        omega

theorem embedBatches_embs (oracle : Nat → List String → Option (List (List ℝ)))
    (hsucc : ∀ i ts, oracle i ts ≠ none)
    (hlen : ∀ i ts r, oracle i ts = some r → r.length = ts.length) :
    ∀ (n b : Nat) (docs : List RawDoc), docs.length = n →
      ∃ embs, (embedDocumentsInBatches oracle b docs).1 = some embs ∧
        embs.length = docs.length := by
  intro n
  induction n using Nat.strong_induction_on with
  | _ n ih =>
    intro b docs hn
    match docs with
    | [] => exact ⟨[], by simp [embedDocumentsInBatches]⟩
    | d :: ds =>
      rw [embedDocumentsInBatches]
      cases ho : oracle b (((d :: ds).take 96).map embedText) with
      | none => exact absurd ho (hsucc _ _)
      | some embs1 =>
        have hlt : ((d :: ds).drop 96).length < n := by
          rw [List.length_drop, ← hn]
          simp only [List.length_cons]
          omega
        obtain ⟨embs2, he2, hl2⟩ := ih _ hlt (b + 1) ((d :: ds).drop 96) rfl
        refine ⟨embs1 ++ embs2, ?_, ?_⟩
        · simp only [he2]
          rfl
        · have hl1 : embs1.length = (((d :: ds).take 96).map embedText).length :=
            hlen _ _ _ ho
          rw [List.length_append, hl1, List.length_map, List.length_take]
          rw [List.length_drop] at hl2
          rw [hl2]
          simp only [List.length_cons]
          omega

theorem init_valid_cache (recs : List CacheRecord)
    (oracle : Nat → List String → Option (List (List ℝ))) (corpus : List RawDoc) :
    initializeDocuments (FileState.valid recs) oracle corpus =
      ⟨FileState.valid recs,
        some (recs.map fun item => ⟨item.id, ⟨item.title, item.snippet⟩, item.embedding⟩),
        0⟩ := rfl

theorem init_cold_success (fs : FileState)
    (oracle : Nat → List String → Option (List (List ℝ))) (corpus : List RawDoc)
    (habs : (loadEmbeddingsFromFile fs).1 = none)
    (hsucc : ∀ i ts, oracle i ts ≠ none)
    (hlen : ∀ i ts r, oracle i ts = some r → r.length = ts.length) :
    (initializeDocuments fs oracle corpus).embedCalls = (corpus.length + 95) / 96 ∧
      ∃ recs, (initializeDocuments fs oracle corpus).file = FileState.valid recs ∧
        recs.length = corpus.length := by
  obtain ⟨embs, he, hel⟩ := embedBatches_embs oracle hsucc hlen corpus.length 1 corpus rfl
  have hc := embedBatches_calls oracle hsucc corpus.length 1 corpus rfl
  rcases hres : embedDocumentsInBatches oracle 1 corpus with ⟨r1, r2⟩
  rw [hres] at he hc
  simp only at he hc
  subst he
  simp only [initializeDocuments, habs, hres]
  refine ⟨hc, saveEmbeddingsToFile (zipEmbeddings corpus embs), rfl, ?_⟩
  rw [saveEmbeddingsToFile, zipEmbeddings, List.length_map, List.length_map,
    List.length_zip, hel]
  simp

theorem init_batch_failure (fs : FileState)
    (oracle : Nat → List String → Option (List (List ℝ))) (corpus : List RawDoc) (c : Nat)
    (habs : (loadEmbeddingsFromFile fs).1 = none)
    (hfail : embedDocumentsInBatches oracle 1 corpus = (none, c)) :
    initializeDocuments fs oracle corpus = ⟨fs, none, c⟩ := by
  simp only [initializeDocuments, habs, hfail]

theorem embDoc_eta_map (docs : List EmbDoc) :
    docs.map (fun d => (⟨d.id, ⟨d.data.title, d.data.snippet⟩, d.embedding⟩ : EmbDoc)) =
      docs := by
  induction docs with
  | nil => rfl
  | cons d ds ih =>
    rw [List.map_cons, ih]

theorem save_load_roundtrip (docs : List EmbDoc) :
    (loadEmbeddingsFromFile (FileState.valid (saveEmbeddingsToFile docs))).1 = some docs := by
  simp only [loadEmbeddingsFromFile, saveEmbeddingsToFile, List.map_map]
  exact congrArg some (embDoc_eta_map docs)

/-! ### Claim C1 -/

/-- Claim C1: for every query vector, corpus and `k`, `getTopKDocuments`
returns `min k (corpus size)` documents, ordered by descending cosine
similarity to the query (stated for corpora on which every similarity is
well defined), with equal-similarity documents in their original corpus
order; and on the scenario corpus with embeddings `[1,0]`, `[0,1]`, `[1,0]`
and query `[1,0]` with `k = 2` it returns the two `[1,0]` documents in
original order. -/
theorem C1_topK_length_order_stability :
    (∀ (q : List ℝ) (docs : List EmbDoc) (k : Nat),
        (getTopKDocuments q docs k).length = min k docs.length)
    ∧ (∀ (q : List ℝ) (docs : List EmbDoc) (k : Nat),
        (∀ d ∈ docs, (cosineSimilarity q d.embedding).isSome) →
        (getTopKDocuments q docs k).Pairwise fun d₁ d₂ =>
          scoreGE (cosineSimilarity q d₁.embedding) (cosineSimilarity q d₂.embedding))
    ∧ (∀ (q : List ℝ) (docs : List EmbDoc) (k : Nat) (s : ℝ),
        List.Sublist (withSim q s (getTopKDocuments q docs k)) (withSim q s docs))
    ∧ getTopKDocuments [(1 : ℝ), 0] scenDocs 2 = [scenD0, scenD2] :=
  ⟨getTopK_length, getTopK_pairwise, getTopK_stable, topK_scenario⟩

/-- Witness for C1: the ordering part applied to the concrete scenario
corpus, with its well-definedness hypothesis discharged. -/
theorem C1_topK_witness :
    (∀ d ∈ scenDocs, (cosineSimilarity [(1 : ℝ), 0] d.embedding).isSome)
    ∧ (getTopKDocuments [(1 : ℝ), 0] scenDocs 2).Pairwise (fun d₁ d₂ =>
        scoreGE (cosineSimilarity [(1 : ℝ), 0] d₁.embedding)
          (cosineSimilarity [(1 : ℝ), 0] d₂.embedding)) := by
  have hdef : ∀ d ∈ scenDocs, (cosineSimilarity [(1 : ℝ), 0] d.embedding).isSome := by
    intro d hd
    simp only [scenDocs, List.mem_cons, List.mem_singleton] at hd
    rcases hd with rfl | rfl | hd
    · rw [show scenD0.embedding = [(1 : ℝ), 0] from rfl, cos_q10_e10]; rfl
    · rw [show scenD1.embedding = [(0 : ℝ), 1] from rfl, cos_q10_e01]; rfl
    · rcases hd with rfl | hd
      · rw [show scenD2.embedding = [(1 : ℝ), 0] from rfl, cos_q10_e10]; rfl
      · cases hd
  exact ⟨hdef, C1_topK_length_order_stability.2.1 [(1 : ℝ), 0] scenDocs 2 hdef⟩

/-! ### Claim C2 -/

/-- Claim C2: with a valid cache file, `initializeDocuments` makes zero
embedding-provider calls; with the file absent it makes exactly
`ceil(corpus size / 96)` batch calls (for a provider that answers each batch
with one vector per text) and the persisted cache's record count equals the
corpus size. -/
theorem C2_initialize_calls :
    (∀ (recs : List CacheRecord) (oracle : Nat → List String → Option (List (List ℝ)))
        (corpus : List RawDoc),
        (initializeDocuments (FileState.valid recs) oracle corpus).embedCalls = 0)
    ∧ (∀ (oracle : Nat → List String → Option (List (List ℝ))) (corpus : List RawDoc),
        (∀ i ts, oracle i ts ≠ none) →
        (∀ i ts r, oracle i ts = some r → r.length = ts.length) →
        (initializeDocuments FileState.absent oracle corpus).embedCalls =
            (corpus.length + 95) / 96
        ∧ ∃ recs, (initializeDocuments FileState.absent oracle corpus).file =
              FileState.valid recs ∧ recs.length = corpus.length) := by
  constructor
  · intro recs oracle corpus
    rw [init_valid_cache]
  · intro oracle corpus hsucc hlen
    exact init_cold_success _ _ _ rfl hsucc hlen

/-- Witness for C2: a three-document corpus with an always-answering
provider needs exactly one batch call and persists three records. -/
theorem C2_initialize_witness :
    (∀ i ts, constEmbedOracle i ts ≠ none)
    ∧ (∀ i ts r, constEmbedOracle i ts = some r → r.length = ts.length)
    ∧ ((initializeDocuments FileState.absent constEmbedOracle corpus3).embedCalls =
          (corpus3.length + 95) / 96
      ∧ ∃ recs, (initializeDocuments FileState.absent constEmbedOracle corpus3).file =
            FileState.valid recs ∧ recs.length = corpus3.length) := by
  have h1 : ∀ i ts, constEmbedOracle i ts ≠ none := by
    intro i ts
    simp [constEmbedOracle]
  have h2 : ∀ i ts r, constEmbedOracle i ts = some r → r.length = ts.length := by
    intro i ts r h
    simp only [constEmbedOracle, Option.some_inj] at h
    rw [← h, List.length_map]
  exact ⟨h1, h2, C2_initialize_calls.2 constEmbedOracle corpus3 h1 h2⟩

/-! ### Claim C3 -/

/-- Counterexample for C3: before the corpus build has completed (the
module-level `cachedDocuments` still holds its initial `[]`), a valid
prompt to `/generate` yields a plain success ranked against zero documents
— not any distinct "service not ready" outcome; and while `cachedDocuments`
is null during a cold-start build, the handler answers a generic 500. -/
theorem C3_not_ready_counterexample :
    generateHandler (some "hi") (some []) okQueryOracle okChatOracle =
        (GenResponse.ok "answer" [], 2)
    ∧ generateHandler (some "hi") none okQueryOracle okChatOracle =
        (GenResponse.serverError "Cohere request failed", 1) := by
  constructor <;> rfl

/-- Claim C3 as amended: a request arriving before the corpus is built is
not answered with a distinct not-ready outcome: against the initial empty
corpus the handler returns a successful answer ranked over zero documents,
and against the null corpus of a cold-start build it returns the generic
"Cohere request failed" 500 (the thrown error is caught, so the process does
not crash). -/
theorem C3_not_ready_amended :
    ∀ (p : String) (qv : List ℝ) (t : String)
      (eo : String → Option (List ℝ)) (co : String → List EmbDoc → Option String),
      p ≠ "" → eo p = some qv → co p [] = some t →
      generateHandler (some p) (some []) eo co = (GenResponse.ok t [], 2)
      ∧ generateHandler (some p) none eo co =
          (GenResponse.serverError "Cohere request failed", 1) := by
  intro p qv t eo co hp heo hco
  have htop : getTopKDocuments qv [] 10 = [] := rfl
  constructor
  · simp [generateHandler, hp, heo, htop, hco]
  · simp [generateHandler, hp, heo]

/-- Witness for C3: the amended statement applied at a concrete prompt and
concrete oracles. -/
theorem C3_not_ready_witness :
    ("hi" : String) ≠ ""
    ∧ okQueryOracle "hi" = some [1]
    ∧ okChatOracle "hi" [] = some "answer"
    ∧ (generateHandler (some "hi") (some []) okQueryOracle okChatOracle =
          (GenResponse.ok "answer" [], 2)
      ∧ generateHandler (some "hi") none okQueryOracle okChatOracle =
          (GenResponse.serverError "Cohere request failed", 1)) := by
  refine ⟨by decide, rfl, rfl, ?_⟩
  exact C3_not_ready_amended "hi" [1] "answer" okQueryOracle okChatOracle (by decide) rfl rfl

/-! ### Claim C4 -/

/-- Counterexample for C4: a corpus whose first document has a zero-norm
embedding `[0,0]` followed by a unit document perfectly similar to the
query.  The zero-norm document is returned first — ahead of a document with
a well-defined similarity — not with lowest priority. -/
theorem C4_zero_norm_counterexample :
    mag zeroDoc.embedding = 0
    ∧ (cosineSimilarity [(1 : ℝ), 0] unitDoc.embedding).isSome
    ∧ getTopKDocuments [(1 : ℝ), 0] [zeroDoc, unitDoc] 2 = [zeroDoc, unitDoc] := by
  refine ⟨mag_zero_zero, ?_, ?_⟩
  · rw [show unitDoc.embedding = [(1 : ℝ), 0] from rfl, cos_q10_e10]
    rfl
  · have h := topK_zero_first [(1 : ℝ), 0] zeroDoc unitDoc 2 mag_zero_zero
    simpa using h

/-- Claim C4 as amended: a zero-norm corpus vector makes the cosine
similarity NaN (`none`), no division error is raised; the sort comparator
treats NaN as a tie with every score, so such a document keeps its original
relative position — in a two-document corpus headed by the zero-norm
document, the output is simply the untruncated original order — rather than
being ranked with lowest priority. -/
theorem C4_zero_norm_amended :
    (∀ (q emb : List ℝ), mag emb = 0 → cosineSimilarity q emb = none)
    ∧ (∀ a : Option ℝ, ¬ scoreGT none a ∧ ¬ scoreGT a none)
    ∧ (∀ (q : List ℝ) (d₀ d₁ : EmbDoc) (k : Nat), mag d₀.embedding = 0 →
        getTopKDocuments q [d₀, d₁] k = ([d₀, d₁].take k)) :=
  ⟨cosineSimilarity_of_mag_zero,
    fun a => ⟨scoreGT_none_left a, scoreGT_none_right a⟩,
    fun q d₀ d₁ k h => topK_zero_first q d₀ d₁ k h⟩

/-- Witness for C4: the amended statement applied to the concrete zero-norm
document. -/
theorem C4_zero_norm_witness :
    mag zeroDoc.embedding = 0
    ∧ cosineSimilarity [(1 : ℝ), 0] zeroDoc.embedding = none
    ∧ getTopKDocuments [(1 : ℝ), 0] [zeroDoc, unitDoc] 1 = [zeroDoc] := by
  refine ⟨mag_zero_zero, C4_zero_norm_amended.1 [(1 : ℝ), 0] zeroDoc.embedding mag_zero_zero, ?_⟩
  have h := C4_zero_norm_amended.2.2 [(1 : ℝ), 0] zeroDoc unitDoc 1 mag_zero_zero
  simpa using h

/-! ### Claim C5 -/

/-- Claim C5: if an embedding batch call fails during the corpus build, the
embeddings file is left exactly as it was (no cache is written) and the
partially embedded documents are never installed: `cachedDocuments` stays
null. -/
theorem C5_partial_failure_no_save :
    ∀ (fs : FileState) (oracle : Nat → List String → Option (List (List ℝ)))
      (corpus : List RawDoc) (c : Nat),
      (loadEmbeddingsFromFile fs).1 = none →
      embedDocumentsInBatches oracle 1 corpus = (none, c) →
      initializeDocuments fs oracle corpus = ⟨fs, none, c⟩ :=
  init_batch_failure

/-- Witness for C5: a failing provider on a three-document corpus makes one
call, writes nothing, installs nothing. -/
theorem C5_partial_failure_witness :
    (loadEmbeddingsFromFile FileState.absent).1 = none
    ∧ embedDocumentsInBatches failEmbedOracle 1 corpus3 = (none, 1)
    ∧ initializeDocuments FileState.absent failEmbedOracle corpus3 =
        ⟨FileState.absent, none, 1⟩ := by
  have h2 : embedDocumentsInBatches failEmbedOracle 1 corpus3 = (none, 1) := by
    rw [show corpus3 = [rawDoc0, rawDoc0, rawDoc0] from rfl, embedDocumentsInBatches]
    rfl
  exact ⟨rfl, h2, C5_partial_failure_no_save FileState.absent failEmbedOracle corpus3 1 rfl h2⟩

/-! ### Claim C6 -/

/-- Counterexample for C6: a REST-countries record with every read field
present except `region` produces a snippet in which the absent field appears
as the literal text "undefined" — not as the empty string. -/
theorem C6_normalizer_counterexample :
    (restCountryDoc franceNoRegion).data.snippet =
        "Official Name: French Republic. Capital: Paris. Region: " ++ "undefined" ++
          ". Subregion: Western Europe. Population: 67000000. Languages: French. Area: 551695 sq km."
    ∧ (restCountryDoc franceNoRegion).data.snippet ≠
        "Official Name: French Republic. Capital: Paris. Region: . Subregion: Western Europe. Population: 67000000. Languages: French. Area: 551695 sq km." := by
  constructor
  · decide
  · decide

/-- Claim C6 as amended: the normaliser never throws on missing optional
fields, and the fields guarded by `|| ''` or optional chaining (title,
capital, languages) degrade to the empty string — but the fields
interpolated without a default (official name, region, subregion,
population, area in the country-profile branch; every interpolated field of
the merged-countries branch) appear as the literal text "undefined" in the
snippet when absent. -/
theorem C6_normalizer_amended :
    (∀ c : RestCountry, c.name = none → c.capital = none → c.languages = none →
        (restCountryDoc c).data.title = ""
        ∧ (restCountryDoc c).data.snippet =
            "Official Name: " ++ "undefined" ++ ". Capital: " ++ "" ++
            ". Region: " ++ jsStr c.region ++ ". Subregion: " ++ jsStr c.subregion ++
            ". Population: " ++ jsNat c.population ++ ". Languages: " ++ "" ++
            ". Area: " ++ jsNat c.area ++ " sq km.")
    ∧ (∀ m : MergedCountry, m.name = none → m.capital = none →
        (mergedCountryDoc m).data.title = ""
        ∧ (mergedCountryDoc m).data.snippet =
            "Capital: " ++ "undefined" ++ ", Region: " ++ jsStr m.region ++
            ", Population: " ++ jsNat m.population ++ ", Language: " ++ jsStr m.language ++
            ", Currency: " ++ jsStr m.currency) := by
  constructor
  · intro c h1 h2 h3
    constructor
    · rw [restCountryDoc]
      simp [h1, orEmpty]
    · rw [restCountryDoc]
      simp only [h1, h2, h3, Option.none_bind, Option.getD_none]
      rfl
  · intro m h1 h2
    constructor
    · rw [mergedCountryDoc]
      simp [h1, orEmpty]
    · rw [mergedCountryDoc]
      simp only [h2]
      rfl

/-- Witness for C6: the amended statement applied to records with every
field missing. -/
theorem C6_normalizer_witness :
    restAllMissing.name = none
    ∧ ((restCountryDoc restAllMissing).data.title = ""
      ∧ (restCountryDoc restAllMissing).data.snippet =
          "Official Name: " ++ "undefined" ++ ". Capital: " ++ "" ++
          ". Region: " ++ jsStr restAllMissing.region ++ ". Subregion: " ++
          jsStr restAllMissing.subregion ++ ". Population: " ++
          jsNat restAllMissing.population ++ ". Languages: " ++ "" ++
          ". Area: " ++ jsNat restAllMissing.area ++ " sq km.")
    ∧ ((mergedCountryDoc mergedAllMissing).data.title = ""
      ∧ (mergedCountryDoc mergedAllMissing).data.snippet =
          "Capital: " ++ "undefined" ++ ", Region: " ++ jsStr mergedAllMissing.region ++
          ", Population: " ++ jsNat mergedAllMissing.population ++ ", Language: " ++
          jsStr mergedAllMissing.language ++ ", Currency: " ++ jsStr mergedAllMissing.currency) := by
  refine ⟨rfl, ?_, ?_⟩
  · exact C6_normalizer_amended.1 restAllMissing rfl rfl rfl
  · exact C6_normalizer_amended.2 mergedAllMissing rfl rfl

/-! ### Claim C7 -/

/-- Counterexample for C7: a one-dimensional query against a two-dimensional
corpus vector is not reported as an error: the dot product silently uses
only the first component, the similarity is the well-defined value 1, and a
ranking over the mismatched vectors is returned. -/
theorem C7_dimension_counterexample :
    cosineSimilarity [(1 : ℝ)] mismatchDoc.embedding = some 1
    ∧ getTopKDocuments [(1 : ℝ)] [mismatchDoc] 5 = [mismatchDoc] := by
  constructor
  · exact cos_q1_e10
  · rfl

/-- Claim C7 as amended: the code performs no dimensionality check and
reports no error.  A query longer than the document vector yields a NaN
similarity (`none`); a query no longer than the document vector silently
truncates the dot product to the query's length and produces a numeric
similarity. -/
theorem C7_dimension_amended :
    (∀ a b : List ℝ, b.length < a.length → cosineSimilarity a b = none)
    ∧ (∀ a b : List ℝ, a.length ≤ b.length → dotJS a b = dotJS a (b.take a.length)) :=
  ⟨cosineSimilarity_long_query, dotJS_truncates⟩

/-- Witness for C7: both amended branches applied at concrete mismatched
vectors. -/
theorem C7_dimension_witness :
    (([(1 : ℝ)]).length < ([(1 : ℝ), 1]).length
      ∧ cosineSimilarity [(1 : ℝ), 1] [(1 : ℝ)] = none)
    ∧ (([(1 : ℝ)]).length ≤ ([(1 : ℝ), 0]).length
      ∧ dotJS [(1 : ℝ)] [(1 : ℝ), 0] =
          dotJS [(1 : ℝ)] (([(1 : ℝ), 0]).take ([(1 : ℝ)]).length)) := by
  refine ⟨⟨by simp, ?_⟩, ⟨by simp, ?_⟩⟩
  · exact C7_dimension_amended.1 [(1 : ℝ), 1] [(1 : ℝ)] (by simp)
  · exact C7_dimension_amended.2 [(1 : ℝ)] [(1 : ℝ), 0] (by simp)

/-! ### Claim C8 -/

/-- Counterexample for C8: `/holiday` with a missing `userInput` still makes
one generation-provider call — the missing field is interpolated into the
chat message as the literal text "undefined" and the request succeeds
instead of being rejected. -/
theorem C8_holiday_counterexample :
    (holidayHandler none (fun _ => some "trip")).2 = 1
    ∧ (holidayHandler none (fun _ => some "trip")).1 = HolidayResponse.ok "trip"
    ∧ holidayMessage none =
        "Generate a holiday itinerary based on this request: \"" ++ "undefined" ++
          "\". Format the response as Day-wise itinerary." := by
  exact ⟨rfl, rfl, rfl⟩

/-- Claim C8 as amended: `/generate` rejects a missing or empty prompt with
a 400 before any provider call, but `/holiday` performs no validation: it
always makes exactly one generation call, whatever `userInput` is. -/
theorem C8_validation_amended :
    (∀ (cached : Option (List EmbDoc)) (eo : String → Option (List ℝ))
        (co : String → List EmbDoc → Option String),
        generateHandler none cached eo co = (GenResponse.badRequest "Prompt is required", 0)
        ∧ generateHandler (some "") cached eo co =
            (GenResponse.badRequest "Prompt is required", 0))
    ∧ (∀ (u : Option String) (co : String → Option String), (holidayHandler u co).2 = 1) := by
  constructor
  · intro cached eo co
    exact ⟨rfl, rfl⟩
  · intro u co
    cases hco : co (holidayMessage u) with
    | some t => simp [holidayHandler, hco]
    | none => simp [holidayHandler, hco]

/-! ### Claim C9 -/

/-- Counterexample for C9: a corrupt cache file is indistinguishable from an
absent one — `loadEmbeddingsFromFile` returns the identical result,
including the identical warning line (which even claims no file was found),
so no warning distinct from the absent case is surfaced. -/
theorem C9_corrupt_counterexample :
    loadEmbeddingsFromFile FileState.corrupt = loadEmbeddingsFromFile FileState.absent
    ∧ (loadEmbeddingsFromFile FileState.corrupt).2 = embeddingsWarning := ⟨rfl, rfl⟩

/-- Claim C9 as amended: the cache load returns the parsed documents for a
present-and-valid file and null for both the absent and the corrupt file; a
corrupt file is treated exactly as absent — the same warning is printed
(none distinct) and the same full rebuild is triggered. -/
theorem C9_cache_outcomes_amended :
    (∀ recs : List CacheRecord,
        (loadEmbeddingsFromFile (FileState.valid recs)).1 =
          some (recs.map fun item => ⟨item.id, ⟨item.title, item.snippet⟩, item.embedding⟩))
    ∧ loadEmbeddingsFromFile FileState.absent = (none, embeddingsWarning)
    ∧ loadEmbeddingsFromFile FileState.corrupt = (none, embeddingsWarning)
    ∧ (∀ (oracle : Nat → List String → Option (List (List ℝ))) (corpus : List RawDoc),
        (initializeDocuments FileState.corrupt oracle corpus).cachedDocuments =
            (initializeDocuments FileState.absent oracle corpus).cachedDocuments
        ∧ (initializeDocuments FileState.corrupt oracle corpus).embedCalls =
            (initializeDocuments FileState.absent oracle corpus).embedCalls) := by
  refine ⟨fun recs => rfl, rfl, rfl, ?_⟩
  intro oracle corpus
  simp only [initializeDocuments, loadEmbeddingsFromFile]
  rcases embedDocumentsInBatches oracle 1 corpus with ⟨o, c⟩
  cases o <;> simp

/-! ### Claim C10 -/

/-- Claim C10: saving any list of embedded documents and loading it back
yields the same list — same length and order, and every document keeps its
id, title, snippet and embedding. -/
theorem C10_save_load_roundtrip :
    ∀ docs : List EmbDoc,
      (loadEmbeddingsFromFile (FileState.valid (saveEmbeddingsToFile docs))).1 = some docs :=
  save_load_roundtrip

end CohereServer
